import Mathlib

set_option maxRecDepth 8192

/-!
Verification of the conversation-history and settings-persistence subsystem of
the discord-openai-bot repository.

Python strings are embedded as lists of characters (type Str below).  Python
string operations used by the source (startswith, the in-operator, split with
count 1, strip, replace) are given executable Lean counterparts.  Message
dictionaries become structures; module-level mutable dictionaries become an
explicit BotState record threaded through the loading pipeline.
-/

/-- Python strings are modelled as lists of characters. -/
abbrev Str := List Char

/-- Conversion from a Lean string literal to the character-list model. -/
def str (s : String) : Str := s.data

/-- Python str.isspace for the ASCII whitespace characters that str.strip
removes (space, tab, newline, carriage return, vertical tab, form feed). -/
def isPySpace (c : Char) : Bool :=
  c = ' ' || c = '\t' || c = '\n' || c = '\r' || c = '\x0b' || c = '\x0c'

/-- Python str.strip(): drop whitespace from both ends. -/
def pyStrip (s : Str) : Str :=
  ((s.dropWhile isPySpace).reverse.dropWhile isPySpace).reverse

/-- Python substring containment, the in-operator: does pat occur in s? -/
def containsSub (pat : Str) : Str → Bool
  | [] => pat.isEmpty
  | c :: rest => pat.isPrefixOf (c :: rest) || containsSub pat rest

/-- Python s.split(pat, 1)[1]: the text after the first occurrence of pat,
or none when pat does not occur in s. -/
def afterFirst (pat : Str) : Str → Option Str
  | [] => if pat.isEmpty then some [] else none
  | c :: rest =>
      if pat.isPrefixOf (c :: rest) then some ((c :: rest).drop pat.length)
      else afterFirst pat rest

/-- Python s.replace("**", ""): delete the occurrences of two consecutive
asterisks, scanning left to right, non-overlapping. -/
def removeBold : Str → Str
  | [] => []
  | [c] => [c]
  | c :: d :: rest =>
      if c = '*' ∧ d = '*' then removeBold rest
      else c :: removeBold (d :: rest)

/-- A word character in the sense of the regex class used by the settings
parser (letters, digits, underscore; the source texts are ASCII). -/
def isWordChar (c : Char) : Bool := c.isAlphanum || c = '_'

/-- Split off the maximal leading run of word characters. -/
def takeWord (s : Str) : Str × Str := (s.takeWhile isWordChar, s.dropWhile isWordChar)

/-- Match a literal at the front of s, returning the remainder. -/
def dropLit (lit s : Str) : Option Str :=
  if lit.isPrefixOf s then some (s.drop lit.length) else none

/-- Roles of stored history messages (the source uses the strings user,
assistant and system). -/
inductive Role where
  | user
  | assistant
  | system
deriving Repr, DecidableEq

/-- A stored history message: the role/content dictionaries kept in
channel_history. -/
structure Msg where
  role : Role
  content : Str
deriving Repr, DecidableEq

/-- A raw Discord message as the fetch loop sees it: its text, whether the
author is the bot itself (author == channel.guild.me), and the author's
display name. -/
structure RawMsg where
  displayName : Str
  content : Str
  isBot : Bool
deriving Repr, DecidableEq

/-- config.MAX_HISTORY with its default value 10 (env override not modelled). -/
def MAX_HISTORY : Nat := 10

/-- config.HISTORY_LINE_PREFIX default value. -/
def HISTORY_LINE_PREFIX : Str := str "➤ "

/-- config.DEFAULT_SYSTEM_PROMPT default value. -/
def DEFAULT_SYSTEM_PROMPT : Str :=
  str "You are a helpful assistant in a Discord server. Respond in a friendly, concise manner. You have been listening to the conversation and can reference it in your replies."

/-- utils/history/message_processing.py is_bot_command: a message is a
command when it starts with an exclamation mark, embeds a command after a
display name, or starts with a slash; messages starting with !prompt are
exempted because their confirmation responses carry settings data. -/
def is_bot_command (message_text : Str) : Bool :=
  if (str "!prompt").isPrefixOf message_text then false
  else
    (str "!").isPrefixOf message_text ||
    containsSub (str ": !") message_text ||
    (str "/").isPrefixOf message_text

/-- utils/history/message_processing.py is_history_output: the fixed pattern
list recognising the bot's own informational output, with the overriding
exemption for system-prompt update confirmations. -/
def is_history_output (t : Str) : Bool :=
  if containsSub (str "System prompt updated for") t then false
  else
    containsSub (str "**Conversation History**") t ||
    containsSub HISTORY_LINE_PREFIX t ||
    (str "**1.").isPrefixOf t ||
    (str "**2.").isPrefixOf t ||
    (containsSub (str "Loaded ") t && containsSub (str " messages from channel history") t) ||
    containsSub (str "Cleaned history: removed ") t ||
    containsSub (str "**Bot Status for") t ||
    containsSub (str "Usage: !history") t ||
    containsSub (str "Options: on, off") t ||
    containsSub (str "Available providers:") t ||
    containsSub (str "DeepSeek thinking display is currently") t ||
    containsSub (str "DeepSeek thinking display is already") t ||
    containsSub (str "Auto-response is currently ") t ||
    containsSub (str "Auto-response is already") t ||
    containsSub (str "is already set to") t ||
    containsSub (str "is already using the default") t ||
    (containsSub (str "System prompt for") t && containsSub (str "is already") t) ||
    containsSub (str "Current system prompt for") t ||
    containsSub (str "You need administrator permissions") t ||
    containsSub (str "Invalid setting:") t ||
    containsSub (str "Invalid AI provider:") t ||
    containsSub (str "Unknown history command:") t ||
    containsSub (str "No Category:") t ||
    (containsSub (str "Manage the") t && containsSub (str "provider") t)

/-- utils/history/message_processing.py should_skip_message_from_history:
skip messages that start with an exclamation mark and are commands (the
is_bot_command exemption keeps settings commands); the reason strings and
the unused is_bot_message flag are dropped. -/
def should_skip_message_from_history (content : Str) : Bool :=
  if (str "!").isPrefixOf content then
    if ¬ is_bot_command content then false else true
  else false

/-- utils/history/message_processing.py create_user_message. -/
def create_user_message (displayName content : Str) : Msg :=
  { role := .user, content := displayName ++ str ": " ++ content }

/-- utils/history/message_processing.py create_assistant_message. -/
def create_assistant_message (content : Str) : Msg :=
  { role := .assistant, content := content }

/-- utils/history/message_processing.py create_system_update_message: note
that the source stores the given content verbatim with role system and does
not add the SYSTEM_PROMPT_UPDATE: marker itself. -/
def create_system_update_message (content : Str) : Msg :=
  { role := .system, content := content }

/-- Loop body of prepare_messages_for_api: keep exactly the user and
assistant entries, copying role and content. -/
def prepareLoop : List Msg → List Msg
  | [] => []
  | m :: rest =>
      if m.role = .user ∨ m.role = .assistant then
        { role := m.role, content := m.content } :: prepareLoop rest
      else prepareLoop rest

/-- utils/history/message_processing.py prepare_messages_for_api: prepend a
system message carrying the live system prompt of the channel, then append
every stored message whose role is user or assistant; the source applies no
content-based filtering here. -/
def prepare_messages_for_api (systemPrompt : Str) (history : List Msg) : List Msg :=
  { role := .system, content := systemPrompt } :: prepareLoop history

/-- utils/history/message_processing.py extract_system_prompt_updates: the
content strings of the system entries starting with the sentinel marker, in
order. -/
def extract_system_prompt_updates (history : List Msg) : List Str :=
  (history.filter fun m =>
    m.role = .system && (str "SYSTEM_PROMPT_UPDATE:").isPrefixOf m.content).map Msg.content

example : is_bot_command (str "!history clean") = true := by decide
example : is_bot_command (str "!prompt be terse") = false := by decide
example : is_bot_command (str "dave: !ai openai") = true := by decide
example : is_history_output (str "Auto-response is now **enabled** in #general") = false := by decide
example : is_history_output (str "Auto-response is currently **on** in #general") = true := by decide
example : is_history_output (str "System prompt updated for #general.") = false := by decide

/-- utils/history/settings_parser.py parse_system_prompt_update: a system
message whose content starts with SYSTEM_PROMPT_UPDATE: yields the stripped
remainder of the content when that remainder is non-empty.  The source uses
replace with count 1 under the startswith guard, which removes exactly the
leading marker. -/
def parse_system_prompt_update (m : Msg) : Option Str :=
  if m.role = .system ∧ (str "SYSTEM_PROMPT_UPDATE:").isPrefixOf m.content then
    let prompt_text := pyStrip (m.content.drop (str "SYSTEM_PROMPT_UPDATE:").length)
    if prompt_text.isEmpty then none else some prompt_text
  else none

/-- Deterministic match of the regex pattern
AI provider for number-sign word changed from word to captured-word
at the start of s.  Greedy word runs followed by literals opening with a
non-word character need no backtracking, so the maximal run is the only
viable choice. -/
def matchProviderChangedAt (s : Str) : Option Str := do
  let s1 ← dropLit (str "AI provider for #") s
  let (w1, r1) := takeWord s1
  if w1.isEmpty then none else
  let s2 ← dropLit (str " changed from ") r1
  let (w2, r2) := takeWord s2
  if w2.isEmpty then none else
  let s3 ← dropLit (str " to ") r2
  let (w3, _) := takeWord s3
  if w3.isEmpty then none else
  some w3

/-- re.search for the changed-from pattern: first start position at which
the pattern matches. -/
def searchProviderChanged (s : Str) : Option Str :=
  match matchProviderChangedAt s with
  | some w => some w
  | none => match s with
    | [] => none
    | _ :: rest => searchProviderChanged rest

/-- Deterministic match of the regex pattern
default open-paren captured-word close-paren at the start of s. -/
def matchDefaultParenAt (s : Str) : Option Str := do
  let s1 ← dropLit (str "default (") s
  let (w1, r1) := takeWord s1
  if w1.isEmpty then none else
  let _ ← dropLit (str ")") r1
  some w1

/-- re.search for the default-paren pattern. -/
def searchDefaultParen (s : Str) : Option Str :=
  match matchDefaultParenAt s with
  | some w => some w
  | none => match s with
    | [] => none
    | _ :: rest => searchDefaultParen rest

/-- Deterministic match of the regex pattern
AI provider for number-sign word reset from word to default open-paren
captured-word close-paren at the start of s. -/
def matchProviderResetAt (s : Str) : Option Str := do
  let s1 ← dropLit (str "AI provider for #") s
  let (w1, r1) := takeWord s1
  if w1.isEmpty then none else
  let s2 ← dropLit (str " reset from ") r1
  let (w2, r2) := takeWord s2
  if w2.isEmpty then none else
  let s3 ← dropLit (str " to default (") r2
  let (w3, r3) := takeWord s3
  if w3.isEmpty then none else
  let _ ← dropLit (str ")") r3
  some w3

/-- re.search for the reset pattern. -/
def searchProviderReset (s : Str) : Option Str :=
  match matchProviderResetAt s with
  | some w => some w
  | none => match s with
    | [] => none
    | _ :: rest => searchProviderReset rest

/-- utils/history/settings_parser.py parse_ai_provider_change: extract the
new provider name from an assistant confirmation message, resolving the
literal word default through the parenthesised actual provider when
present. -/
def parse_ai_provider_change (m : Msg) : Option Str :=
  if m.role ≠ .assistant then none
  else
    match searchProviderChanged m.content with
    | some provider =>
        if provider = str "default" then
          match searchDefaultParen m.content with
          | some actual => some actual
          | none => some provider
        else some provider
    | none =>
        match searchProviderReset m.content with
        | some provider => some provider
        | none => none

/-- utils/history/settings_parser.py parse_auto_respond_change. -/
def parse_auto_respond_change (m : Msg) : Option Bool :=
  if m.role ≠ .assistant then none
  else
    if containsSub (str "Auto-response is now") m.content then
      if containsSub (str "**enabled**") m.content then some true
      else if containsSub (str "**disabled**") m.content then some false
      else none
    else none

/-- utils/history/settings_parser.py parse_thinking_setting_change. -/
def parse_thinking_setting_change (m : Msg) : Option Bool :=
  if m.role ≠ .assistant then none
  else
    if containsSub (str "DeepSeek thinking display") m.content then
      if containsSub (str "**enabled**") m.content then some true
      else if containsSub (str "**disabled**") m.content then some false
      else none
    else none

/-- The result record of parse_settings_from_history. -/
structure ParsedSettings where
  system_prompt : Option Str
  ai_provider : Option Str
  auto_respond : Option Bool
  thinking_enabled : Option Bool
  settings_found : List Str
deriving Repr, DecidableEq

/-- The empty settings record the parser starts from. -/
def ParsedSettings.init : ParsedSettings :=
  { system_prompt := none, ai_provider := none, auto_respond := none,
    thinking_enabled := none, settings_found := [] }

/-- Record a found setting type once, preserving first-found order. -/
def addFound (found : List Str) (name : Str) : List Str :=
  if found.contains name then found else found ++ [name]

/-- One iteration of the parse_settings_from_history scan: each of the four
parsers that fires overwrites its setting, so the last match in list order
wins. -/
def parseSettingsStep (st : ParsedSettings) (m : Msg) : ParsedSettings :=
  let st1 := match parse_system_prompt_update m with
    | some p => { st with system_prompt := some p,
                          settings_found := addFound st.settings_found (str "system_prompt") }
    | none => st
  let st2 := match parse_ai_provider_change m with
    | some p => { st1 with ai_provider := some p,
                           settings_found := addFound st1.settings_found (str "ai_provider") }
    | none => st1
  let st3 := match parse_auto_respond_change m with
    | some b => { st2 with auto_respond := some b,
                           settings_found := addFound st2.settings_found (str "auto_respond") }
    | none => st2
  match parse_thinking_setting_change m with
  | some b => { st3 with thinking_enabled := some b,
                         settings_found := addFound st3.settings_found (str "thinking_enabled") }
  | none => st3

/-- utils/history/settings_parser.py parse_settings_from_history: scan the
messages in list order (chronological) and keep the latest value of each
setting type.  The per-message try/except of the source never fires in this
pure model. -/
def parse_settings_from_history (msgs : List Msg) : ParsedSettings :=
  msgs.foldl parseSettingsStep ParsedSettings.init

example : parse_ai_provider_change
    { role := .assistant, content := str "AI provider for #test changed from openai to deepseek" }
    = some (str "deepseek") := by decide
example : parse_ai_provider_change
    { role := .assistant, content := str "AI provider for #test reset from deepseek to default (openai)" }
    = some (str "openai") := by decide
example : parse_ai_provider_change
    { role := .assistant, content := str "AI provider for #general changed from **openai** to **anthropic**." }
    = none := by decide
example : parse_auto_respond_change
    { role := .assistant, content := str "Auto-response is now **enabled** in #test" }
    = some true := by decide
example : parse_system_prompt_update
    { role := .system, content := str "SYSTEM_PROMPT_UPDATE: You are helpful" }
    = some (str "You are helpful") := by decide
example : (parse_settings_from_history
    [ { role := .assistant, content := str "AI provider for #g changed from deepseek to openai" },
      { role := .assistant, content := str "AI provider for #g changed from openai to anthropic" } ]).ai_provider
    = some (str "anthropic") := by decide

/-- The valid provider names of utils/history/settings_manager.py. -/
def validProviders : List Str := [str "openai", str "anthropic", str "deepseek"]

/-- utils/history/settings_manager.py validate_parsed_settings, as a
boolean: a parsed system prompt must be a non-empty-after-strip string of at
most 10000 characters, a parsed provider must be one of the valid names;
the auto-respond and thinking values are booleans by construction so their
type checks always pass. -/
def validate_parsed_settings (s : ParsedSettings) : Bool :=
  (match s.system_prompt with
   | none => true
   | some p => !(pyStrip p).isEmpty && p.length ≤ 10000) &&
  (match s.ai_provider with
   | none => true
   | some pr => validProviders.contains pr)

/-- The per-channel mutable state of the storage module that the loading
pipeline touches: the message window (channel_history entry), the system
prompt override (channel_system_prompts entry), the provider override
(channel_ai_providers entry), and the loaded flag (presence in
loaded_history_channels). -/
structure BotState where
  history : List Msg
  systemPrompt : Option Str
  aiProvider : Option Str
  loaded : Bool
deriving Repr, DecidableEq

/-- The initial state of a never-seen channel. -/
def BotState.initial : BotState :=
  { history := [], systemPrompt := none, aiProvider := none, loaded := false }

/-- utils/history/settings_manager.py apply_restored_settings: write the
parsed system prompt and, when it names a valid provider, the parsed
provider into the per-channel stores; auto-respond and thinking values are
logged but never applied by the source. -/
def apply_restored_settings (s : ParsedSettings) (st : BotState) : BotState :=
  let st1 := match s.system_prompt with
    | some p => { st with systemPrompt := some p }
    | none => st
  match s.ai_provider with
  | some pr => if validProviders.contains pr then { st1 with aiProvider := some pr } else st1
  | none => st1

/-- The accumulator of the fetch loop in
utils/history/discord_loader.py load_messages_from_discord: the kept
messages in chronological order (the loop inserts at position zero while
iterating newest first), the setprompt tracking flags, and the last
captured inline prompt text. -/
structure FetchScan where
  msgs : List RawMsg
  found_setprompt : Bool
  found_setprompt_response : Bool
  setprompt_content : Str
deriving Repr, DecidableEq

/-- The initial fetch-scan accumulator. -/
def FetchScan.init : FetchScan :=
  { msgs := [], found_setprompt := false, found_setprompt_response := false,
    setprompt_content := [] }

/-- One iteration of the discord_loader fetch loop over a raw message; the
boolean component is the should-skip-first flag used by automatic loading.
Every matching setprompt command overwrites setprompt_content, so the last
iterated (that is, oldest) command wins.  The response flag is set by any
bot message containing the update confirmation text, anywhere in the
transcript. -/
def fetchScanStep (acc : FetchScan × Bool) (m : RawMsg) : FetchScan × Bool :=
  let (st, skipFirst) := acc
  if skipFirst then (st, false)
  else
    let st :=
      if (str "!setprompt ").isPrefixOf m.content then
        { st with found_setprompt := true,
                  setprompt_content := pyStrip (m.content.drop (str "!setprompt ").length) }
      else st
    let st :=
      if m.isBot && containsSub (str "System prompt updated for") m.content then
        { st with found_setprompt_response := true }
      else st
    if should_skip_message_from_history m.content then (st, false)
    else ({ st with msgs := m :: st.msgs }, false)

/-- utils/history/discord_loader.py extract_prompt_from_update_message: the
body calls create_system_update_message with two arguments, but that
function takes a single argument, so the call raises a TypeError which the
surrounding except swallows; the function therefore always returns None. -/
def extract_prompt_from_update_message_loader (_ : RawMsg) : Option Msg := none

/-- Conversion of one raw Discord message in
utils/history/discord_loader.py process_discord_messages: setprompt
commands are skipped, bot messages become assistant entries (the
system-prompt-update extraction always fails, see
extract_prompt_from_update_message_loader, so such confirmations fall
through to the regular assistant branch), other messages become user
entries. -/
def processOne (m : RawMsg) : Option Msg :=
  if (str "!setprompt").isPrefixOf m.content then none
  else if m.isBot then
    if containsSub (str "System prompt updated for") m.content &&
       containsSub (str "New prompt:") m.content then
      match extract_prompt_from_update_message_loader m with
      | some u => some u
      | none => some (create_assistant_message m.content)
    else some (create_assistant_message m.content)
  else some (create_user_message m.displayName m.content)

/-- utils/history/discord_loader.py process_discord_messages: convert the
kept raw messages in order; the per-message try/except of the source never
fires in this pure model. -/
def process_discord_messages (msgs : List RawMsg) : List Msg :=
  msgs.filterMap processOne

/-- utils/history/discord_loader.py load_messages_from_discord, as a pure
function of the raw messages the Discord iterator yields (newest first):
the optional directly-applied prompt and the list of messages appended to
the channel history, in order (the direct-apply system record, when
present, precedes the converted messages). -/
def load_messages_from_discord (auto : Bool) (raws : List RawMsg) : Option Str × List Msg :=
  let scan := (raws.foldl fetchScanStep (FetchScan.init, auto)).fst
  let converted := process_discord_messages scan.msgs
  if scan.found_setprompt && !scan.setprompt_content.isEmpty &&
     !scan.found_setprompt_response then
    (some scan.setprompt_content,
     create_system_update_message scan.setprompt_content :: converted)
  else (none, converted)

/-- utils/history/loading.py _restore_channel_settings: parse settings from
the loaded history, validate them, and apply them when valid; an empty
history skips restoration.  Validation failure or parse errors leave the
state untouched (the source returns an error summary the caller ignores). -/
def restore_channel_settings (st : BotState) : BotState :=
  if st.history.isEmpty then st
  else
    let s := parse_settings_from_history st.history
    if validate_parsed_settings s then apply_restored_settings s st else st

/-- The cleanup predicate of utils/history/loading.py
_finalize_history_loading (and of cleanup_coordinator.py
_filter_conversation_history): keep a message unless it is a user message
that is a bot command and does not start with the setprompt text. -/
def keepAfterCleanup (m : Msg) : Bool :=
  !(m.role = .user && is_bot_command m.content &&
    !((str "!setprompt").isPrefixOf m.content))

/-- utils/history/loading.py _finalize_history_loading: filter the window
with the cleanup predicate.  The legacy system-prompt restoration branch is
a no-op: it calls extract_system_prompt_updates with the message list
itself where that function expects a channel id to look up, so the dict
access raises a TypeError that the surrounding except swallows, and the
prompt is never written.  No trim to MAX_HISTORY occurs anywhere in this
path. -/
def finalize_history_loading (st : BotState) : BotState :=
  { st with history := st.history.filter keepAfterCleanup }

/-- The successful loading pipeline of utils/history/loading.py
load_channel_history, as one pure state transformer: skip when already
loaded, otherwise run load_messages_from_discord, settings restoration and
final cleanup, then mark the channel loaded. -/
def load_once (auto : Bool) (raws : List RawMsg) (st : BotState) : BotState :=
  if st.loaded then st
  else
    let (direct, appended) := load_messages_from_discord auto raws
    let st1 : BotState :=
      { st with history := st.history ++ appended,
                systemPrompt := match direct with
                  | some p => some p
                  | none => st.systemPrompt }
    let st2 := restore_channel_settings st1
    let st3 := finalize_history_loading st2
    { st3 with loaded := true }

/-- utils/history/loading.py force_reload_channel_history: remove the
channel from the loaded index; the window and the settings stores are left
untouched. -/
def force_reload_channel_history (st : BotState) : BotState :=
  { st with loaded := false }

/-- Outcome record for the control flow of load_channel_history: the final
state, the value returned or the exception propagated to the caller, and
whether the channel lock is free again when the call ends. -/
structure LoadAttempt where
  state : BotState
  outcome : Except Str Unit
  lockReleased : Bool
deriving Repr

/-- utils/history/loading.py load_channel_history with the remote fetch
made explicit: an error value stands for the Discord iterator raising.  An
already-loaded channel returns immediately.  On a fetch error nothing has
been appended yet (the loop collects into a local list), the inner except
re-raises, mark_channel_history_loaded is never reached, and the finally
block releases the lock before the exception propagates to the caller. -/
def load_channel_history (auto : Bool) (fetched : Except Str (List RawMsg))
    (st : BotState) : LoadAttempt :=
  if st.loaded then { state := st, outcome := .ok (), lockReleased := true }
  else
    match fetched with
    | .error e => { state := st, outcome := .error e, lockReleased := true }
    | .ok raws => { state := load_once auto raws st, outcome := .ok (), lockReleased := true }

/-- utils/history/realtime_settings_parser.py
extract_prompt_from_update_message, as a function of the message text:
take the text after the first occurrence of the new-prompt marker, strip
it, delete the bold markers, strip again, and fail on an empty result. -/
def extract_prompt_from_update_message (content : Str) : Option Str :=
  match afterFirst (str "New prompt:") content with
  | none => none
  | some rest =>
      let prompt_text := pyStrip rest
      let cleaned := pyStrip (removeBold prompt_text)
      if cleaned.isEmpty then none else some cleaned

/-- commands/prompt_commands.py prompt_cmd confirmation message for a
successful prompt update in the named channel. -/
def promptUpdateConfirmation (channelName newPrompt : Str) : Str :=
  str "System prompt updated for #" ++ channelName ++ str ".\nNew prompt: **" ++
    newPrompt ++ str "**"

/-- The append-then-trim step of bot.py on_message (lines 197-228): store
the new message, then cut the window to the MAX_HISTORY most recent entries
when it got too long. -/
def on_message_append_and_trim (history : List Msg) (m : Msg) : List Msg :=
  let h := history ++ [m]
  if MAX_HISTORY < h.length then h.drop (h.length - MAX_HISTORY) else h

/-- A settings-persistence message in the sense of the specification: a bot
message whose text records a change of the auto-respond, AI-provider or
thinking state, recognised by the corresponding settings_parser matchers. -/
def isSettingsPersistenceMessage (s : Str) : Bool :=
  (parse_auto_respond_change (create_assistant_message s)).isSome ||
  (parse_ai_provider_change (create_assistant_message s)).isSome ||
  (parse_thinking_setting_change (create_assistant_message s)).isSome

example : extract_prompt_from_update_message
    (promptUpdateConfirmation (str "general") (str "You are helpful"))
    = some (str "You are helpful") := by decide
example : isSettingsPersistenceMessage (str "Auto-response is now **enabled** in #general") = true := by decide
example : (load_once false [ { displayName := str "u", content := str "hi there", isBot := false } ]
    BotState.initial).history = [ { role := .user, content := str "u: hi there" } ] := by decide

/-- The Discord history iterator channel.history(limit=...): all messages of
the remote transcript, newest first, or only the newest limit-many when a
count is given. -/
def channel_history_iter (limit : Option Nat) (transcript : List RawMsg) : List RawMsg :=
  match limit with
  | none => transcript
  | some n => transcript.take n

/-- The collection loop of utils/history/discord_fetcher.py
fetch_messages_from_discord: skip the first yielded message when the load
is automatic and prepend each kept message, so the result is in
chronological order. -/
def fetchAllLoop (acc : List RawMsg) (skipFirst : Bool) : List RawMsg → List RawMsg
  | [] => acc
  | m :: rest =>
      if skipFirst then fetchAllLoop acc false rest
      else fetchAllLoop (m :: acc) false rest

/-- utils/history/discord_fetcher.py fetch_messages_from_discord: iterate
the full transcript with no count limit (limit=None) and return the kept
messages together with the skipped count. -/
def fetch_messages_from_discord (transcript : List RawMsg) (auto : Bool) :
    List RawMsg × Nat :=
  (fetchAllLoop [] auto (channel_history_iter none transcript),
   if auto && !transcript.isEmpty then 1 else 0)

/-- The provider-change confirmation text recognised by
parse_ai_provider_change, for given old and new provider names in channel
general (the format of the settings_parser docstring examples). -/
def providerChangeMsg (a b : Str) : Msg :=
  create_assistant_message
    (str "AI provider for #general changed from " ++ a ++ str " to " ++ b)

/-- The fixed head of the prompt-update confirmation, before the
new-prompt marker. -/
def promptConfirmationHead (channelName : Str) : Str :=
  str "System prompt updated for #" ++ channelName ++ str ".\n"

/-- Last-match accumulator: the update a single parser application performs
on its slot of the settings record. -/
def lastUpd (f : Msg → Option α) (acc : Option α) (m : Msg) : Option α :=
  match f m with
  | some v => some v
  | none => acc

theorem findSome?_append (f : α → Option β) (l1 l2 : List α) :
    (l1 ++ l2).findSome? f
      = match l1.findSome? f with
        | some v => some v
        | none => l2.findSome? f := by
  induction l1 with
  | nil => simp
  | cons a l ih =>
      simp only [List.cons_append, List.findSome?_cons]
      cases f a <;> simp [ih]

theorem foldl_lastUpd_eq (f : Msg → Option α) (l : List Msg) :
    ∀ i, l.foldl (lastUpd f) i
      = match l.reverse.findSome? f with
        | some v => some v
        | none => i := by
  induction l with
  | nil => intro i; simp
  | cons m l ih =>
      intro i
      simp only [List.foldl_cons, List.reverse_cons, ih]
      rw [findSome?_append]
      cases hl : l.reverse.findSome? f <;>
        simp [List.findSome?_cons, lastUpd] <;> cases f m <;> simp

theorem foldl_lastUpd_of_none (f : Msg → Option α) (l : List Msg)
    (h : ∀ m ∈ l, f m = none) : ∀ i, l.foldl (lastUpd f) i = i := by
  induction l with
  | nil => intro i; simp
  | cons m l ih =>
      intro i
      have hm : f m = none := h m (by simp)
      simp only [List.foldl_cons, lastUpd, hm]
      exact ih (fun x hx => h x (by simp [hx])) i

theorem foldl_lastUpd_filter (f : Msg → Option α) (keep : Msg → Bool)
    (hf : ∀ m, keep m = false → f m = none) (l : List Msg) :
    ∀ i, (l.filter keep).foldl (lastUpd f) i = l.foldl (lastUpd f) i := by
  induction l with
  | nil => intro i; simp
  | cons m l ih =>
      intro i
      by_cases hk : keep m
      · simp [List.filter_cons, hk, ih]
      · have : f m = none := hf m (by simpa using hk)
        simp [List.filter_cons, hk, lastUpd, this, ih]

theorem parseStep_system_prompt (st : ParsedSettings) (m : Msg) :
    (parseSettingsStep st m).system_prompt
      = lastUpd parse_system_prompt_update st.system_prompt m := by
  cases h1 : parse_system_prompt_update m <;>
  cases h2 : parse_ai_provider_change m <;>
  cases h3 : parse_auto_respond_change m <;>
  cases h4 : parse_thinking_setting_change m <;>
  simp [parseSettingsStep, lastUpd, h1, h2, h3, h4]

theorem parseStep_ai_provider (st : ParsedSettings) (m : Msg) :
    (parseSettingsStep st m).ai_provider
      = lastUpd parse_ai_provider_change st.ai_provider m := by
  cases h1 : parse_system_prompt_update m <;>
  cases h2 : parse_ai_provider_change m <;>
  cases h3 : parse_auto_respond_change m <;>
  cases h4 : parse_thinking_setting_change m <;>
  simp [parseSettingsStep, lastUpd, h1, h2, h3, h4]

theorem parseStep_auto_respond (st : ParsedSettings) (m : Msg) :
    (parseSettingsStep st m).auto_respond
      = lastUpd parse_auto_respond_change st.auto_respond m := by
  cases h1 : parse_system_prompt_update m <;>
  cases h2 : parse_ai_provider_change m <;>
  cases h3 : parse_auto_respond_change m <;>
  cases h4 : parse_thinking_setting_change m <;>
  simp [parseSettingsStep, lastUpd, h1, h2, h3, h4]

theorem parseStep_thinking (st : ParsedSettings) (m : Msg) :
    (parseSettingsStep st m).thinking_enabled
      = lastUpd parse_thinking_setting_change st.thinking_enabled m := by
  cases h1 : parse_system_prompt_update m <;>
  cases h2 : parse_ai_provider_change m <;>
  cases h3 : parse_auto_respond_change m <;>
  cases h4 : parse_thinking_setting_change m <;>
  simp [parseSettingsStep, lastUpd, h1, h2, h3, h4]

theorem foldl_parse_proj (g : ParsedSettings → Option α) (f : Msg → Option α)
    (hstep : ∀ st m, g (parseSettingsStep st m) = lastUpd f (g st) m)
    (l : List Msg) : ∀ st, g (l.foldl parseSettingsStep st) = l.foldl (lastUpd f) (g st) := by
  induction l with
  | nil => intro st; simp
  | cons m l ih =>
      intro st
      simp only [List.foldl_cons, ih, hstep]

theorem parse_settings_system_prompt (l : List Msg) :
    (parse_settings_from_history l).system_prompt
      = l.reverse.findSome? parse_system_prompt_update := by
  unfold parse_settings_from_history
  rw [foldl_parse_proj _ _ parseStep_system_prompt, foldl_lastUpd_eq]
  cases l.reverse.findSome? parse_system_prompt_update <;> simp [ParsedSettings.init]

theorem parse_settings_ai_provider (l : List Msg) :
    (parse_settings_from_history l).ai_provider
      = l.reverse.findSome? parse_ai_provider_change := by
  unfold parse_settings_from_history
  rw [foldl_parse_proj _ _ parseStep_ai_provider, foldl_lastUpd_eq]
  cases l.reverse.findSome? parse_ai_provider_change <;> simp [ParsedSettings.init]

theorem parse_settings_auto_respond (l : List Msg) :
    (parse_settings_from_history l).auto_respond
      = l.reverse.findSome? parse_auto_respond_change := by
  unfold parse_settings_from_history
  rw [foldl_parse_proj _ _ parseStep_auto_respond, foldl_lastUpd_eq]
  cases l.reverse.findSome? parse_auto_respond_change <;> simp [ParsedSettings.init]

theorem parse_settings_thinking (l : List Msg) :
    (parse_settings_from_history l).thinking_enabled
      = l.reverse.findSome? parse_thinking_setting_change := by
  unfold parse_settings_from_history
  rw [foldl_parse_proj _ _ parseStep_thinking, foldl_lastUpd_eq]
  cases l.reverse.findSome? parse_thinking_setting_change <;> simp [ParsedSettings.init]

theorem lastUpd_some (f : Msg → Option α) (acc : Option α) (m : Msg) (v : α)
    (h : f m = some v) : lastUpd f acc m = some v := by
  simp [lastUpd, h]

/-- C2: the Settings Parser restores each of the four setting types from the
newest message matching that type's pattern (the source scans
chronologically and overwrites, so the last match in list order wins, which
is the newest); in particular a transcript containing a provider-change
confirmation to openai followed later by one to anthropic, with no further
provider-change confirmation after it, parses to the provider anthropic,
regardless of how many earlier flips occur in pre and mid. -/
theorem settings_parser_newest_match_wins
    (msgs pre mid suf : List Msg)
    (hsuf : ∀ m ∈ suf, parse_ai_provider_change m = none) :
    ((parse_settings_from_history msgs).system_prompt
        = msgs.reverse.findSome? parse_system_prompt_update ∧
     (parse_settings_from_history msgs).ai_provider
        = msgs.reverse.findSome? parse_ai_provider_change ∧
     (parse_settings_from_history msgs).auto_respond
        = msgs.reverse.findSome? parse_auto_respond_change ∧
     (parse_settings_from_history msgs).thinking_enabled
        = msgs.reverse.findSome? parse_thinking_setting_change) ∧
    (parse_settings_from_history
        (pre ++ providerChangeMsg (str "deepseek") (str "openai")
            :: (mid ++ providerChangeMsg (str "openai") (str "anthropic") :: suf))).ai_provider
      = some (str "anthropic") := by
  refine ⟨⟨parse_settings_system_prompt msgs, parse_settings_ai_provider msgs,
          parse_settings_auto_respond msgs, parse_settings_thinking msgs⟩, ?_⟩
  unfold parse_settings_from_history
  rw [foldl_parse_proj _ _ parseStep_ai_provider]
  simp only [List.foldl_append, List.foldl_cons]
  have hfy : parse_ai_provider_change
      (providerChangeMsg (str "openai") (str "anthropic")) = some (str "anthropic") := by
    decide
  rw [lastUpd_some _ _ _ _ hfy]
  exact foldl_lastUpd_of_none _ _ hsuf _

/-- Witness for C2: the scenario instantiated with empty surrounding lists. -/
theorem settings_parser_newest_match_wins_witness :
    (∀ m ∈ ([] : List Msg), parse_ai_provider_change m = none) ∧
    (parse_settings_from_history
        ([] ++ providerChangeMsg (str "deepseek") (str "openai")
            :: ([] ++ providerChangeMsg (str "openai") (str "anthropic") :: []))).ai_provider
      = some (str "anthropic") :=
  ⟨by simp, (settings_parser_newest_match_wins [] [] [] [] (by simp)).2⟩

/-- C1 (evaluation at the failing input): on the window of the concrete
scenario, prepare_messages_for_api applies no content filtering: the output
is the live system prompt followed by all three stored messages, so the
auto-respond confirmation — a settings-persistence message — is included in
the payload rather than excluded. -/
theorem prepare_messages_scenario :
    prepare_messages_for_api DEFAULT_SYSTEM_PROMPT
      [ { role := .user, content := str "hi" },
        { role := .assistant, content := str "Auto-response is now **enabled** in #general" },
        { role := .user, content := str "hello" } ]
      = [ { role := .system, content := DEFAULT_SYSTEM_PROMPT },
          { role := .user, content := str "hi" },
          { role := .assistant, content := str "Auto-response is now **enabled** in #general" },
          { role := .user, content := str "hello" } ] ∧
    isSettingsPersistenceMessage (str "Auto-response is now **enabled** in #general") = true := by
  decide

theorem prepareLoop_roles (history : List Msg) :
    ((prepareLoop history).all fun m => m.role == Role.user || m.role == Role.assistant) = true := by
  induction history with
  | nil => simp [prepareLoop]
  | cons m rest ih =>
      by_cases h : m.role = .user ∨ m.role = .assistant
      · have hrole : (m.role == Role.user || m.role == Role.assistant) = true := by
          rcases h with h1 | h1 <;> rw [h1] <;> rfl
        simp [prepareLoop, h, List.all_cons, hrole, ih]
      · simp [prepareLoop, h, ih]

/-- C9 (amended): the first entry of the prepare_messages_for_api output is
the synthesized system message, and every later entry has role user or
assistant; a stored sentinel record, which has role system, therefore never
appears in the payload.  The exclusion is by role only, so a user or
assistant entry whose content happens to start with the sentinel text is
not excluded (see the counterexample). -/
theorem prepare_messages_sentinel_exclusion (systemPrompt : Str) (history : List Msg) :
    (prepare_messages_for_api systemPrompt history).head?
      = some { role := .system, content := systemPrompt } ∧
    ((prepare_messages_for_api systemPrompt history).tail.all
      fun m => m.role == Role.user || m.role == Role.assistant) = true := by
  exact ⟨rfl, prepareLoop_roles history⟩

/-- C9 counterexample: a window holding an assistant entry whose content
starts with the sentinel text puts that content into the payload, so the
output does contain an entry starting with SYSTEM_PROMPT_UPDATE:. -/
theorem prepare_messages_sentinel_leak :
    ((prepare_messages_for_api DEFAULT_SYSTEM_PROMPT
        [ { role := .assistant, content := str "SYSTEM_PROMPT_UPDATE: leaked" } ]).any
      fun m => (str "SYSTEM_PROMPT_UPDATE:").isPrefixOf m.content) = true := by
  decide

/-- C8 counterexample: a string combining a noise pattern with a
provider-change pattern is classified as noise output and as a
settings-persistence message at the same time, so the two categories are
not disjoint over all strings. -/
theorem classifier_overlap_counterexample :
    is_history_output
      (str "AI provider for #general changed from openai to anthropic is already set to")
      = true ∧
    isSettingsPersistenceMessage
      (str "AI provider for #general changed from openai to anthropic is already set to")
      = true := by
  decide

/-- C8 (amended): on the canonical settings-change confirmation texts the
two classifications are disjoint: each such text is a settings-persistence
message and none of them is classified as noise output. -/
theorem classifier_disjoint_on_confirmations :
    (isSettingsPersistenceMessage (str "Auto-response is now **enabled** in #general") = true ∧
     is_history_output (str "Auto-response is now **enabled** in #general") = false) ∧
    (isSettingsPersistenceMessage (str "Auto-response is now **disabled** in #general") = true ∧
     is_history_output (str "Auto-response is now **disabled** in #general") = false) ∧
    (isSettingsPersistenceMessage (str "AI provider for #general changed from openai to anthropic") = true ∧
     is_history_output (str "AI provider for #general changed from openai to anthropic") = false) ∧
    (isSettingsPersistenceMessage (str "DeepSeek thinking display **enabled** for #general") = true ∧
     is_history_output (str "DeepSeek thinking display **enabled** for #general") = false) := by
  decide

/-- C3 counterexample: a transcript of eleven plain user messages loads into
a window of eleven entries, exceeding MAX_HISTORY; no step of the load
pipeline trims the window. -/
theorem load_exceeds_max_history :
    ¬ ((load_once false
          (List.replicate (MAX_HISTORY + 1)
            { displayName := str "u", content := str "hi", isBot := false })
          BotState.initial).history.length ≤ MAX_HISTORY) := by
  decide

/-- C3 (amended): loading itself does not bound the window (see the
counterexample); the MAX_HISTORY bound is enforced by the append-time trim
of bot.py on_message, after which the window always holds at most
MAX_HISTORY entries. -/
theorem on_message_trim_bound (history : List Msg) (m : Msg) :
    (on_message_append_and_trim history m).length ≤ MAX_HISTORY := by
  unfold on_message_append_and_trim
  by_cases h : MAX_HISTORY < (history ++ [m]).length
  · simp only [h, if_true, List.length_drop]
    omega
  · simp only [h, if_false]
    omega

theorem fetchAllLoop_false (l : List RawMsg) :
    ∀ acc, fetchAllLoop acc false l = l.reverse ++ acc := by
  induction l with
  | nil => intro acc; simp [fetchAllLoop]
  | cons m rest ih =>
      intro acc
      simp [fetchAllLoop, ih, List.reverse_cons, List.append_assoc]

/-- C5 (evaluation of the two fetch paths): the discord_fetcher fetch with
no count limit keeps the whole transcript in chronological order, minus
exactly the newest message when the load is automatic; the capped iteration
that the load workflow's discord_loader actually performs yields only the
newest cap-many messages, so a transcript one longer than the cap always
loses a message. -/
theorem remote_fetch_unlimited_vs_capped (transcript : List RawMsg) (cap : Nat)
    (h : transcript.length = cap + 1) :
    (fetch_messages_from_discord transcript false).fst = transcript.reverse ∧
    (fetch_messages_from_discord transcript true).fst = (transcript.drop 1).reverse ∧
    (channel_history_iter (some cap) transcript).length = cap := by
  refine ⟨?_, ?_, ?_⟩
  · simp [fetch_messages_from_discord, channel_history_iter, fetchAllLoop_false]
  · cases transcript with
    | nil => simp [fetch_messages_from_discord, channel_history_iter, fetchAllLoop]
    | cons m rest =>
        simp [fetch_messages_from_discord, channel_history_iter, fetchAllLoop,
              fetchAllLoop_false]
  · simp [channel_history_iter, List.length_take, h]

/-- Witness for C5 at a three-message transcript and cap two. -/
theorem remote_fetch_unlimited_vs_capped_witness :
    ([ { displayName := str "a", content := str "m1", isBot := false },
       { displayName := str "b", content := str "m2", isBot := false },
       { displayName := str "c", content := str "m3", isBot := false } ] : List RawMsg).length
      = 2 + 1 ∧
    ((fetch_messages_from_discord
        [ { displayName := str "a", content := str "m1", isBot := false },
          { displayName := str "b", content := str "m2", isBot := false },
          { displayName := str "c", content := str "m3", isBot := false } ] false).fst
      = ([ { displayName := str "a", content := str "m1", isBot := false },
           { displayName := str "b", content := str "m2", isBot := false },
           { displayName := str "c", content := str "m3", isBot := false } ] : List RawMsg).reverse ∧
     (fetch_messages_from_discord
        [ { displayName := str "a", content := str "m1", isBot := false },
          { displayName := str "b", content := str "m2", isBot := false },
          { displayName := str "c", content := str "m3", isBot := false } ] true).fst
      = (([ { displayName := str "a", content := str "m1", isBot := false },
            { displayName := str "b", content := str "m2", isBot := false },
            { displayName := str "c", content := str "m3", isBot := false } ] : List RawMsg).drop 1).reverse ∧
     (channel_history_iter (some 2)
        [ { displayName := str "a", content := str "m1", isBot := false },
          { displayName := str "b", content := str "m2", isBot := false },
          { displayName := str "c", content := str "m3", isBot := false } ]).length = 2) :=
  ⟨by decide, remote_fetch_unlimited_vs_capped _ 2 (by decide)⟩

/-- C6: when the remote fetch raises, load_channel_history propagates the
error to its caller, leaves the state unchanged — in particular the channel
is not marked loaded, so a later message retries the load — and the channel
lock is free again when the call ends. -/
theorem load_error_propagates (auto : Bool) (st : BotState) (e : Str)
    (h : st.loaded = false) :
    (load_channel_history auto (.error e) st).outcome = .error e ∧
    (load_channel_history auto (.error e) st).state = st ∧
    (load_channel_history auto (.error e) st).state.loaded = false ∧
    (load_channel_history auto (.error e) st).lockReleased = true := by
  simp [load_channel_history, h]

/-- Witness for C6 at the initial state. -/
theorem load_error_propagates_witness :
    BotState.initial.loaded = false ∧
    ((load_channel_history false (.error (str "network down")) BotState.initial).outcome
        = .error (str "network down") ∧
     (load_channel_history false (.error (str "network down")) BotState.initial).state
        = BotState.initial ∧
     (load_channel_history false (.error (str "network down")) BotState.initial).state.loaded
        = false ∧
     (load_channel_history false (.error (str "network down")) BotState.initial).lockReleased
        = true) :=
  ⟨rfl, load_error_propagates false BotState.initial (str "network down") rfl⟩

theorem fetchScanStep_snd (st : FetchScan) (m : RawMsg) :
    (fetchScanStep (st, false) m).snd = false := by
  cases h : should_skip_message_from_history m.content <;>
    simp [fetchScanStep, h]

theorem fetchScanStep_eta (st : FetchScan) (m : RawMsg) :
    fetchScanStep (st, false) m = ((fetchScanStep (st, false) m).fst, false) := by
  have h := fetchScanStep_snd st m
  exact Prod.ext rfl h

theorem scan_snd (l : List RawMsg) :
    ∀ st : FetchScan, (l.foldl fetchScanStep (st, false)).snd = false := by
  induction l with
  | nil => intro st; rfl
  | cons m rest ih =>
      intro st
      rw [List.foldl_cons, fetchScanStep_eta]
      exact ih _

theorem fetchScanStep_resp (st : FetchScan) (m : RawMsg) :
    (fetchScanStep (st, false) m).fst.found_setprompt_response
      = (st.found_setprompt_response ||
         (m.isBot && containsSub (str "System prompt updated for") m.content)) := by
  cases h1 : (str "!setprompt ").isPrefixOf m.content <;>
  cases h2 : m.isBot && containsSub (str "System prompt updated for") m.content <;>
  cases h3 : should_skip_message_from_history m.content <;>
    simp [fetchScanStep, h1, h2, h3]

theorem fetchScanStep_found (st : FetchScan) (m : RawMsg) :
    (fetchScanStep (st, false) m).fst.found_setprompt
      = (st.found_setprompt || (str "!setprompt ").isPrefixOf m.content) := by
  cases h1 : (str "!setprompt ").isPrefixOf m.content <;>
  cases h2 : m.isBot && containsSub (str "System prompt updated for") m.content <;>
  cases h3 : should_skip_message_from_history m.content <;>
    simp [fetchScanStep, h1, h2, h3]

theorem fetchScanStep_content (st : FetchScan) (m : RawMsg) :
    (fetchScanStep (st, false) m).fst.setprompt_content
      = (if (str "!setprompt ").isPrefixOf m.content then
           pyStrip (m.content.drop (str "!setprompt ").length)
         else st.setprompt_content) := by
  cases h1 : (str "!setprompt ").isPrefixOf m.content <;>
  cases h2 : m.isBot && containsSub (str "System prompt updated for") m.content <;>
  cases h3 : should_skip_message_from_history m.content <;>
    simp [fetchScanStep, h1, h2, h3]

theorem scan_resp_of_none (l : List RawMsg)
    (h : ∀ m ∈ l, (m.isBot && containsSub (str "System prompt updated for") m.content) = false) :
    ∀ st : FetchScan,
      ((l.foldl fetchScanStep (st, false)).fst).found_setprompt_response
        = st.found_setprompt_response := by
  induction l with
  | nil => intro st; rfl
  | cons m rest ih =>
      intro st
      rw [List.foldl_cons, fetchScanStep_eta]
      rw [ih (fun x hx => h x (List.mem_cons_of_mem m hx)) _]
      rw [fetchScanStep_resp, h m (by simp)]
      simp

theorem scan_keep_setprompt (l : List RawMsg)
    (h : ∀ m ∈ l, ((str "!setprompt ").isPrefixOf m.content) = false) :
    ∀ st : FetchScan,
      ((l.foldl fetchScanStep (st, false)).fst).found_setprompt = st.found_setprompt ∧
      ((l.foldl fetchScanStep (st, false)).fst).setprompt_content = st.setprompt_content := by
  induction l with
  | nil => intro st; exact ⟨rfl, rfl⟩
  | cons m rest ih =>
      intro st
      rw [List.foldl_cons, fetchScanStep_eta]
      obtain ⟨h1, h2⟩ := ih (fun x hx => h x (List.mem_cons_of_mem m hx)) _
      refine ⟨?_, ?_⟩
      · rw [h1, fetchScanStep_found, h m (by simp)]
        simp
      · rw [h2, fetchScanStep_content, h m (by simp)]
        simp

theorem isPrefixOf_append (a b : Str) : (a.isPrefixOf (a ++ b)) = true := by
  induction a with
  | nil => simp [List.isPrefixOf]
  | cons c a ih => simp [List.isPrefixOf, ih]

theorem findSome?_of_none {α : Type _} {β : Type _} (f : α → Option β) (l : List α)
    (h : ∀ x ∈ l, f x = none) : l.findSome? f = none := by
  induction l with
  | nil => rfl
  | cons x rest ih =>
      rw [List.findSome?_cons]
      rw [h x (by simp)]
      exact ih (fun y hy => h y (List.mem_cons_of_mem x hy))

theorem parse_sp_none_of_role (m : Msg) (h : m.role ≠ .system) :
    parse_system_prompt_update m = none := by
  simp [parse_system_prompt_update, h]

theorem processOne_role (raw : RawMsg) (m : Msg) (h : processOne raw = some m) :
    m.role = .assistant ∨ m.role = .user := by
  unfold processOne at h
  by_cases h1 : ((str "!setprompt").isPrefixOf raw.content) = true
  · simp [h1] at h
  · simp only [h1] at h
    by_cases h2 : raw.isBot = true
    · simp [h2] at h
      split at h <;>
        first
          | (cases h; left; rfl)
          | (simp [extract_prompt_from_update_message_loader] at h; cases h; left; rfl)
    · simp [h2] at h
      cases h
      right; rfl

theorem process_parse_sp_none (l : List RawMsg) :
    ∀ m ∈ process_discord_messages l, parse_system_prompt_update m = none := by
  intro m hm
  unfold process_discord_messages at hm
  obtain ⟨raw, _, hraw⟩ := List.mem_filterMap.mp hm
  rcases processOne_role raw m hraw with h | h <;>
    exact parse_sp_none_of_role m (by rw [h]; intro hc; cases hc)

theorem apply_restored_systemPrompt (s : ParsedSettings) (st : BotState) :
    (apply_restored_settings s st).systemPrompt
      = match s.system_prompt with
        | some p => some p
        | none => st.systemPrompt := by
  cases hs : s.system_prompt <;> cases hp : s.ai_provider <;>
    simp [apply_restored_settings, hs, hp] <;> split <;> rfl

theorem apply_restored_aiProvider (s : ParsedSettings) (st : BotState) :
    (apply_restored_settings s st).aiProvider
      = match s.ai_provider with
        | some pr => if validProviders.contains pr then some pr else st.aiProvider
        | none => st.aiProvider := by
  cases hs : s.system_prompt <;> cases hp : s.ai_provider <;>
    simp [apply_restored_settings, hs, hp] <;> split <;> rfl

theorem apply_restored_history (s : ParsedSettings) (st : BotState) :
    (apply_restored_settings s st).history = st.history := by
  cases hs : s.system_prompt <;> cases hp : s.ai_provider <;>
    simp [apply_restored_settings, hs, hp] <;> split <;> rfl

theorem apply_restored_loaded (s : ParsedSettings) (st : BotState) :
    (apply_restored_settings s st).loaded = st.loaded := by
  cases hs : s.system_prompt <;> cases hp : s.ai_provider <;>
    simp [apply_restored_settings, hs, hp] <;> split <;> rfl

theorem restore_history (st : BotState) :
    (restore_channel_settings st).history = st.history := by
  unfold restore_channel_settings
  split
  · rfl
  · dsimp only
    split
    · exact apply_restored_history _ _
    · rfl

theorem restore_loaded (st : BotState) :
    (restore_channel_settings st).loaded = st.loaded := by
  unfold restore_channel_settings
  split
  · rfl
  · dsimp only
    split
    · exact apply_restored_loaded _ _
    · rfl

theorem restore_systemPrompt_of_parse_none (st : BotState)
    (h : (parse_settings_from_history st.history).system_prompt = none) :
    (restore_channel_settings st).systemPrompt = st.systemPrompt := by
  unfold restore_channel_settings
  split
  · rfl
  · dsimp only
    split
    · rw [apply_restored_systemPrompt, h]
    · rfl

theorem scan_through (pre suf : List RawMsg) (cmd : RawMsg)
    (hcmd : ((str "!setprompt ").isPrefixOf cmd.content) = true)
    (hpre : ∀ m ∈ pre, ((str "!setprompt ").isPrefixOf m.content) = false)
    (hresp : ∀ m ∈ pre ++ cmd :: suf,
      (m.isBot && containsSub (str "System prompt updated for") m.content) = false) :
    (((pre ++ cmd :: suf).reverse.foldl fetchScanStep (FetchScan.init, false)).fst).found_setprompt
        = true ∧
    (((pre ++ cmd :: suf).reverse.foldl fetchScanStep (FetchScan.init, false)).fst).setprompt_content
        = pyStrip (cmd.content.drop (str "!setprompt ").length) ∧
    (((pre ++ cmd :: suf).reverse.foldl fetchScanStep (FetchScan.init, false)).fst).found_setprompt_response
        = false := by
  have hrev : (pre ++ cmd :: suf).reverse = suf.reverse ++ cmd :: pre.reverse := by
    simp [List.reverse_append]
  rw [hrev, List.foldl_append, List.foldl_cons]
  have hmid : suf.reverse.foldl fetchScanStep (FetchScan.init, false)
      = ((suf.reverse.foldl fetchScanStep (FetchScan.init, false)).fst, false) :=
    Prod.ext rfl (scan_snd _ _)
  rw [hmid, fetchScanStep_eta]
  have hpre' : ∀ m ∈ pre.reverse, ((str "!setprompt ").isPrefixOf m.content) = false := by
    intro m hm; exact hpre m (List.mem_reverse.mp hm)
  have hrespPre : ∀ m ∈ pre.reverse,
      (m.isBot && containsSub (str "System prompt updated for") m.content) = false := by
    intro m hm
    exact hresp m (List.mem_append_left _ (List.mem_reverse.mp hm))
  have hrespSuf : ∀ m ∈ suf.reverse,
      (m.isBot && containsSub (str "System prompt updated for") m.content) = false := by
    intro m hm
    exact hresp m (List.mem_append_right _
      (List.mem_cons_of_mem cmd (List.mem_reverse.mp hm)))
  have hrespCmd : (cmd.isBot && containsSub (str "System prompt updated for") cmd.content) = false :=
    hresp cmd (List.mem_append_right _ (List.mem_cons_self cmd _))
  obtain ⟨hk1, hk2⟩ := scan_keep_setprompt pre.reverse hpre'
    (fetchScanStep ((suf.reverse.foldl fetchScanStep (FetchScan.init, false)).fst, false) cmd).fst
  refine ⟨?_, ?_, ?_⟩
  · rw [hk1, fetchScanStep_found, hcmd]
    simp
  · rw [hk2, fetchScanStep_content, hcmd]
    simp
  · rw [scan_resp_of_none pre.reverse hrespPre, fetchScanStep_resp, hrespCmd,
        scan_resp_of_none suf.reverse hrespSuf]
    simp [FetchScan.init]

/-- C7 (amended): a transcript containing a raw setprompt command with
non-empty inline argument X (not itself starting with the sentinel marker),
with no earlier setprompt command and with no bot message containing the
update-confirmation text anywhere in the transcript, loads (manually) into
a state whose system prompt is the stripped argument, via the direct-apply
fallback.  The source requires the confirmation to be absent from the whole
fetched transcript, not merely absent after the command. -/
theorem setprompt_fallback_applies (X : Str) (cmd : RawMsg) (pre suf : List RawMsg)
    (hcontent : cmd.content = str "!setprompt " ++ X)
    (hX : (pyStrip X).isEmpty = false)
    (hX2 : ((str "SYSTEM_PROMPT_UPDATE:").isPrefixOf (pyStrip X)) = false)
    (hpre : ∀ m ∈ pre, ((str "!setprompt ").isPrefixOf m.content) = false)
    (hresp : ∀ m ∈ pre ++ cmd :: suf,
      (m.isBot && containsSub (str "System prompt updated for") m.content) = false) :
    (load_once false ((pre ++ cmd :: suf).reverse) BotState.initial).systemPrompt
      = some (pyStrip X) := by
  have hcmd : ((str "!setprompt ").isPrefixOf cmd.content) = true := by
    rw [hcontent]; exact isPrefixOf_append _ _
  obtain ⟨hf, hc, hr⟩ := scan_through pre suf cmd hcmd hpre hresp
  rw [show cmd.content.drop (str "!setprompt ").length = X by
        rw [hcontent]; exact List.drop_left _ _] at hc
  have hlmd : load_messages_from_discord false ((pre ++ cmd :: suf).reverse)
      = (some (pyStrip X),
         create_system_update_message (pyStrip X) ::
           process_discord_messages
             (((pre ++ cmd :: suf).reverse.foldl
                fetchScanStep (FetchScan.init, false)).fst).msgs) := by
    simp only [load_messages_from_discord]
    rw [hf, hc, hr, hX]
    rfl
  have hparse : (parse_settings_from_history
      (create_system_update_message (pyStrip X) ::
        process_discord_messages
          (((pre ++ cmd :: suf).reverse.foldl
             fetchScanStep (FetchScan.init, false)).fst).msgs)).system_prompt = none := by
    rw [parse_settings_system_prompt, List.reverse_cons, findSome?_append]
    rw [findSome?_of_none _ _ (fun m hm =>
      process_parse_sp_none _ m (List.mem_reverse.mp hm))]
    simp [List.findSome?, parse_system_prompt_update, create_system_update_message, hX2]
  unfold load_once
  rw [hlmd]
  simp only [show BotState.initial.loaded = false from rfl, Bool.false_eq_true, if_false]
  simp only [finalize_history_loading, List.nil_append]
  rw [restore_systemPrompt_of_parse_none]
  simp only [show BotState.initial.history = [] from rfl, List.nil_append]
  exact hparse

/-- Witness for C7 at a one-command transcript. -/
theorem setprompt_fallback_applies_witness :
    (({ displayName := str "dave", content := str "!setprompt " ++ str "be terse",
        isBot := false } : RawMsg)).content = str "!setprompt " ++ str "be terse" ∧
    (pyStrip (str "be terse")).isEmpty = false ∧
    ((str "SYSTEM_PROMPT_UPDATE:").isPrefixOf (pyStrip (str "be terse"))) = false ∧
    (load_once false
        (([] ++ ({ displayName := str "dave", content := str "!setprompt " ++ str "be terse",
                   isBot := false } : RawMsg) :: []).reverse)
        BotState.initial).systemPrompt = some (pyStrip (str "be terse")) :=
  ⟨rfl, by decide, by decide,
   setprompt_fallback_applies (str "be terse") _ [] [] rfl (by decide) (by decide)
     (by simp) (by decide)⟩

/-- C7 counterexample: in a transcript whose only update confirmation is
older than the raw setprompt command — so no confirmation is subsequent to
the command — the fallback does not fire, because the source checks for a
confirmation anywhere in the fetched transcript: the loaded state keeps no
custom prompt instead of the command argument. -/
theorem setprompt_fallback_counterexample :
    (load_once false
      [ { displayName := str "dave", content := str "!setprompt be terse", isBot := false },
        { displayName := str "bot",
          content := str "System prompt updated for #general.\nNew prompt: **old**",
          isBot := true } ]
      BotState.initial).systemPrompt = none := by
  decide

theorem keep_false_role (m : Msg) (h : keepAfterCleanup m = false) : m.role = .user := by
  unfold keepAfterCleanup at h
  by_cases hr : m.role = .user
  · exact hr
  · simp [hr] at h

theorem parse_pr_none_of_role (m : Msg) (h : m.role ≠ .assistant) :
    parse_ai_provider_change m = none := by
  simp [parse_ai_provider_change, h]

theorem findSome?_eq_none_mem {α : Type _} {β : Type _} (f : α → Option β) (l : List α)
    (h : l.findSome? f = none) : ∀ x ∈ l, f x = none := by
  induction l with
  | nil => intro x hx; cases hx
  | cons a rest ih =>
      rw [List.findSome?_cons] at h
      intro x hx
      cases ha : f a with
      | some v => rw [ha] at h; cases h
      | none =>
          rw [ha] at h
          rcases List.mem_cons.mp hx with hx1 | hx1
          · rw [hx1]; exact ha
          · exact ih h x hx1

theorem findSome?_filter_append (f : Msg → Option α) (keep : Msg → Bool)
    (hf : ∀ m, keep m = false → f m = none) (A : List Msg) :
    ((A.filter keep ++ A).reverse).findSome? f = A.reverse.findSome? f := by
  rw [List.reverse_append, findSome?_append]
  cases hA : A.reverse.findSome? f with
  | some v => rfl
  | none =>
      dsimp only
      apply findSome?_of_none
      intro m hm
      have hmem : m ∈ A := List.mem_of_mem_filter (List.mem_reverse.mp hm)
      exact findSome?_eq_none_mem f A.reverse hA m (List.mem_reverse.mpr hmem)

theorem parse_filter_append_sp (A : List Msg) :
    (parse_settings_from_history (A.filter keepAfterCleanup ++ A)).system_prompt
      = (parse_settings_from_history A).system_prompt := by
  rw [parse_settings_system_prompt, parse_settings_system_prompt]
  exact findSome?_filter_append _ _
    (fun m hm => parse_sp_none_of_role m (by rw [keep_false_role m hm]; intro hc; cases hc)) A

theorem parse_filter_append_pr (A : List Msg) :
    (parse_settings_from_history (A.filter keepAfterCleanup ++ A)).ai_provider
      = (parse_settings_from_history A).ai_provider := by
  rw [parse_settings_ai_provider, parse_settings_ai_provider]
  exact findSome?_filter_append _ _
    (fun m hm => parse_pr_none_of_role m (by rw [keep_false_role m hm]; intro hc; cases hc)) A

theorem validate_congr (s t : ParsedSettings)
    (hsp : s.system_prompt = t.system_prompt) (hpr : s.ai_provider = t.ai_provider) :
    validate_parsed_settings s = validate_parsed_settings t := by
  unfold validate_parsed_settings
  rw [hsp, hpr]

theorem filter_idem (p : Msg → Bool) (l : List Msg) :
    (l.filter p).filter p = l.filter p := by
  induction l with
  | nil => rfl
  | cons m rest ih =>
      by_cases h : p m
      · simp [List.filter_cons, h, ih]
      · simp [List.filter_cons, h, ih]

theorem lmd_snd_nil (auto : Bool) (raws : List RawMsg) (d : Option Str)
    (h : load_messages_from_discord auto raws = (d, [])) : d = none := by
  simp only [load_messages_from_discord] at h
  split at h
  · have h2 := congrArg Prod.snd h
    simp at h2
  · have h1 := congrArg Prod.fst h
    simpa using h1.symm

theorem load_once_loaded (auto : Bool) (raws : List RawMsg) (st : BotState)
    (hst : st.loaded = false) : (load_once auto raws st).loaded = true := by
  unfold load_once
  simp only [hst, Bool.false_eq_true, if_false]

theorem load_once_history (auto : Bool) (raws : List RawMsg) (st : BotState)
    (hst : st.loaded = false) :
    (load_once auto raws st).history
      = (st.history ++ (load_messages_from_discord auto raws).snd).filter keepAfterCleanup := by
  rcases hda : load_messages_from_discord auto raws with ⟨d, A⟩
  unfold load_once
  simp only [hst, Bool.false_eq_true, if_false]
  rw [hda]
  simp only [finalize_history_loading]
  rw [restore_history]

theorem load_once_systemPrompt (auto : Bool) (raws : List RawMsg) (st : BotState)
    (hst : st.loaded = false) (d : Option Str) (A : List Msg)
    (hda : load_messages_from_discord auto raws = (d, A)) :
    (load_once auto raws st).systemPrompt
      = (if (st.history ++ A).isEmpty then d.elim st.systemPrompt some
         else if validate_parsed_settings (parse_settings_from_history (st.history ++ A)) then
           ((parse_settings_from_history (st.history ++ A)).system_prompt).elim
             (d.elim st.systemPrompt some) some
         else d.elim st.systemPrompt some) := by
  unfold load_once
  simp only [hst, Bool.false_eq_true, if_false]
  simp only [hda]
  simp only [finalize_history_loading]
  unfold restore_channel_settings
  dsimp only
  split
  · cases d <;> rfl
  · split
    · rw [apply_restored_systemPrompt]
      cases (parse_settings_from_history (st.history ++ A)).system_prompt <;> cases d <;> rfl
    · cases d <;> rfl

theorem load_once_aiProvider (auto : Bool) (raws : List RawMsg) (st : BotState)
    (hst : st.loaded = false) (d : Option Str) (A : List Msg)
    (hda : load_messages_from_discord auto raws = (d, A)) :
    (load_once auto raws st).aiProvider
      = (if (st.history ++ A).isEmpty then st.aiProvider
         else if validate_parsed_settings (parse_settings_from_history (st.history ++ A)) then
           ((parse_settings_from_history (st.history ++ A)).ai_provider).elim st.aiProvider
             (fun pr => if validProviders.contains pr then some pr else st.aiProvider)
         else st.aiProvider) := by
  unfold load_once
  simp only [hst, Bool.false_eq_true, if_false]
  simp only [hda]
  simp only [finalize_history_loading]
  unfold restore_channel_settings
  dsimp only
  split
  · rfl
  · split
    · rw [apply_restored_aiProvider]
      cases (parse_settings_from_history (st.history ++ A)).ai_provider <;> rfl
    · rfl

theorem append_isEmpty_false (W A : List Msg) (hA : A ≠ []) :
    (W ++ A).isEmpty = false := by
  cases hWA : W ++ A with
  | nil => exact absurd (List.append_eq_nil.mp hWA).2 hA
  | cons x xs => rfl

/-- C4 (amended): reloading duplicates the window instead of rebuilding it:
for every transcript, after load, forced reload and a second load of the
same transcript, the final system prompt and provider settings equal those
of the first load, but the final window is the first window concatenated
with itself — force_reload_channel_history clears only the loaded flag and
the loading pipeline appends without clearing. -/
theorem reload_appends_window (auto : Bool) (raws : List RawMsg) :
    (load_once auto raws
        (force_reload_channel_history (load_once auto raws BotState.initial))).systemPrompt
      = (load_once auto raws BotState.initial).systemPrompt ∧
    (load_once auto raws
        (force_reload_channel_history (load_once auto raws BotState.initial))).aiProvider
      = (load_once auto raws BotState.initial).aiProvider ∧
    (load_once auto raws
        (force_reload_channel_history (load_once auto raws BotState.initial))).history
      = (load_once auto raws BotState.initial).history
        ++ (load_once auto raws BotState.initial).history := by
  rcases hda : load_messages_from_discord auto raws with ⟨d, A⟩
  have hinit : (BotState.initial).loaded = false := rfl
  have h1hist : (load_once auto raws BotState.initial).history = A.filter keepAfterCleanup := by
    rw [load_once_history auto raws BotState.initial hinit, hda]
    simp [BotState.initial]
  have hfrloaded :
      (force_reload_channel_history (load_once auto raws BotState.initial)).loaded = false := rfl
  have hfrhist :
      (force_reload_channel_history (load_once auto raws BotState.initial)).history
        = A.filter keepAfterCleanup := h1hist
  have hfrsp :
      (force_reload_channel_history (load_once auto raws BotState.initial)).systemPrompt
        = (load_once auto raws BotState.initial).systemPrompt := rfl
  have hfrpr :
      (force_reload_channel_history (load_once auto raws BotState.initial)).aiProvider
        = (load_once auto raws BotState.initial).aiProvider := rfl
  have h2hist : (load_once auto raws
      (force_reload_channel_history (load_once auto raws BotState.initial))).history
        = (A.filter keepAfterCleanup ++ A).filter keepAfterCleanup := by
    rw [load_once_history auto raws _ hfrloaded, hda, hfrhist]
  have hhist : (load_once auto raws
      (force_reload_channel_history (load_once auto raws BotState.initial))).history
        = (load_once auto raws BotState.initial).history
          ++ (load_once auto raws BotState.initial).history := by
    rw [h2hist, h1hist, List.filter_append, filter_idem]
  have hval : validate_parsed_settings
        (parse_settings_from_history (A.filter keepAfterCleanup ++ A))
      = validate_parsed_settings (parse_settings_from_history A) :=
    validate_congr _ _ (parse_filter_append_sp A) (parse_filter_append_pr A)
  refine ⟨?_, ?_, hhist⟩
  · rw [load_once_systemPrompt auto raws _ hfrloaded d A hda, hfrhist, hfrsp,
        load_once_systemPrompt auto raws BotState.initial hinit d A hda]
    by_cases hA : A = []
    · subst hA
      have hd : d = none := lmd_snd_nil auto raws d hda
      subst hd
      simp [BotState.initial]
    · have hAe : A.isEmpty = false := by
        cases A with
        | nil => exact absurd rfl hA
        | cons x xs => rfl
      rw [append_isEmpty_false _ A hA]
      simp only [show (BotState.initial).history = [] from rfl, List.nil_append,
                 show (BotState.initial).systemPrompt = none from rfl,
                 hAe, Bool.false_eq_true, if_false,
                 hval, parse_filter_append_sp A]
      by_cases hv : validate_parsed_settings (parse_settings_from_history A) = true
      · simp only [hv, if_true]
        cases (parse_settings_from_history A).system_prompt <;> cases d <;> simp
      · simp only [hv, if_false]
        cases d <;> simp
  · rw [load_once_aiProvider auto raws _ hfrloaded d A hda, hfrhist, hfrpr,
        load_once_aiProvider auto raws BotState.initial hinit d A hda]
    by_cases hA : A = []
    · subst hA
      simp [BotState.initial]
    · have hAe : A.isEmpty = false := by
        cases A with
        | nil => exact absurd rfl hA
        | cons x xs => rfl
      rw [append_isEmpty_false _ A hA]
      simp only [show (BotState.initial).history = [] from rfl, List.nil_append,
                 show (BotState.initial).aiProvider = none from rfl,
                 hAe, Bool.false_eq_true, if_false,
                 hval, parse_filter_append_pr A]
      by_cases hv : validate_parsed_settings (parse_settings_from_history A) = true
      · simp only [hv, if_true]
        cases hp : (parse_settings_from_history A).ai_provider with
        | none => simp
        | some pr =>
            by_cases hc : validProviders.contains pr = true
            · simp [hc]
            · simp only [Option.elim]
              rw [if_neg (by simpa using hc), if_neg (by simpa using hc)]
      · simp only [hv, if_false]
        simp

/-- C4 counterexample: with a one-message transcript, loading, forcing a
reload and loading the same transcript again leaves a window of two entries
(the converted message twice), not the window of the first load, so
reloading is not idempotent as claimed. -/
theorem reload_not_idempotent :
    (load_once false [ { displayName := str "u", content := str "hi", isBot := false } ]
        (force_reload_channel_history
          (load_once false [ { displayName := str "u", content := str "hi", isBot := false } ]
            BotState.initial))).history
      ≠ (load_once false [ { displayName := str "u", content := str "hi", isBot := false } ]
          BotState.initial).history := by
  decide

theorem removeBold_append_stars (p : Str) (h : containsSub (str "**") p = false) :
    removeBold (p ++ ['*', '*']) = p := by
  induction p with
  | nil => rfl
  | cons c p' ih =>
      simp only [containsSub, Bool.or_eq_false_iff] at h
      obtain ⟨h1, h2⟩ := h
      cases p' with
      | nil =>
          by_cases hc : c = '*'
          · subst hc
            rfl
          · show removeBold (c :: '*' :: ['*']) = [c]
            rw [show removeBold (c :: '*' :: ['*']) =
                  if c = '*' ∧ '*' = '*' then removeBold ['*']
                  else c :: removeBold ('*' :: ['*']) from rfl]
            rw [if_neg (by intro hx; exact hc hx.1)]
            rfl
      | cons d p'' =>
          have hnb : ¬(c = '*' ∧ d = '*') := by
            intro hx
            rw [hx.1, hx.2] at h1
            simp [List.isPrefixOf, str] at h1
          show removeBold (c :: d :: (p'' ++ ['*', '*'])) = c :: d :: p''
          rw [show removeBold (c :: d :: (p'' ++ ['*', '*'])) =
                if c = '*' ∧ d = '*' then removeBold (p'' ++ ['*', '*'])
                else c :: removeBold (d :: (p'' ++ ['*', '*'])) from rfl]
          rw [if_neg hnb]
          have := ih (by simpa [containsSub] using h2)
          rw [show (d :: (p'' ++ ['*', '*'])) = (d :: p'') ++ ['*', '*'] from rfl, this]

theorem dropWhile_star (X : Str) :
    List.dropWhile isPySpace ('*' :: X) = '*' :: X := by
  rw [List.dropWhile_cons]
  simp [isPySpace]

theorem pyStrip_bold_block (p : Str) :
    pyStrip (' ' :: '*' :: '*' :: (p ++ ['*', '*'])) = '*' :: '*' :: (p ++ ['*', '*']) := by
  unfold pyStrip
  rw [List.dropWhile_cons]
  simp only [show isPySpace ' ' = true from rfl, if_true]
  rw [dropWhile_star]
  have h2 : ('*' :: '*' :: (p ++ ['*', '*'])).reverse
      = '*' :: '*' :: (('*' :: '*' :: p).reverse) := by
    rw [show ('*' :: '*' :: (p ++ ['*', '*'])) = ('*' :: '*' :: p) ++ ['*', '*'] from rfl,
        List.reverse_append]
    rfl
  rw [h2, dropWhile_star, ← h2, List.reverse_reverse]

theorem containsSub_of_isPrefixOf (pat s : Str) (h : pat.isPrefixOf s = true) :
    containsSub pat s = true := by
  cases s with
  | nil =>
      cases pat with
      | nil => rfl
      | cons c rest => simp [List.isPrefixOf] at h
  | cons c rest => simp [containsSub, h]

theorem afterFirst_at_marker (pat B : Str) : afterFirst pat (pat ++ B) = some B := by
  cases hpB : pat ++ B with
  | nil =>
      obtain ⟨h1, h2⟩ := List.append_eq_nil.mp hpB
      subst h1; subst h2
      rfl
  | cons c rest =>
      rw [← hpB]
      cases hp : pat with
      | nil =>
          cases B with
          | nil => rfl
          | cons b bs => simp [afterFirst, List.isPrefixOf]
      | cons pc prest =>
          rw [← hp, hpB]
          rw [show afterFirst pat (c :: rest)
                = if pat.isPrefixOf (c :: rest) then some ((c :: rest).drop pat.length)
                  else afterFirst pat rest from by
              cases pat <;> rfl]
          rw [if_pos (by rw [← hpB]; exact isPrefixOf_append pat B)]
          rw [← hpB, List.drop_left]

theorem not_prefix_straddle (pat B : Str) (a : Char) (A' : Str)
    (h : containsSub pat ((a :: A') ++ pat.dropLast) = false) :
    pat.isPrefixOf ((a :: A') ++ pat ++ B) = false := by
  by_contra hcon
  have hpre1 : pat <+: (a :: A') ++ pat ++ B :=
    List.isPrefixOf_iff_prefix.mp (by
      cases hx : pat.isPrefixOf ((a :: A') ++ pat ++ B) with
      | true => rfl
      | false => exact absurd hx hcon)
  have hpre2 : (a :: A') ++ pat.dropLast <+: (a :: A') ++ pat ++ B := by
    obtain ⟨t, ht⟩ := (List.dropLast_prefix pat).trans (List.prefix_append pat B)
    exact ⟨t, by rw [List.append_assoc, ht, ← List.append_assoc]⟩
  have hlen : pat.length ≤ ((a :: A') ++ pat.dropLast).length := by
    simp [List.length_dropLast]
    omega
  have hinside : pat <+: (a :: A') ++ pat.dropLast :=
    List.prefix_of_prefix_length_le hpre1 hpre2 hlen
  rw [containsSub_of_isPrefixOf pat _ (List.isPrefixOf_iff_prefix.mpr hinside)] at h
  cases h

theorem afterFirst_split (pat B : Str) :
    ∀ A : Str, containsSub pat (A ++ pat.dropLast) = false →
      afterFirst pat (A ++ pat ++ B) = some B := by
  intro A
  induction A with
  | nil =>
      intro _
      rw [List.nil_append]
      exact afterFirst_at_marker pat B
  | cons a A' ih =>
      intro h
      have hnp : pat.isPrefixOf ((a :: A') ++ pat ++ B) = false :=
        not_prefix_straddle pat B a A' h
      rw [show (a :: A') ++ pat ++ B = a :: (A' ++ pat ++ B) from rfl]
      rw [show afterFirst pat (a :: (A' ++ pat ++ B))
            = if pat.isPrefixOf (a :: (A' ++ pat ++ B))
              then some ((a :: (A' ++ pat ++ B)).drop pat.length)
              else afterFirst pat (A' ++ pat ++ B) from by cases pat <;> rfl]
      rw [if_neg (by rw [show a :: (A' ++ pat ++ B) = (a :: A') ++ pat ++ B from rfl, hnp]
                     intro hx; cases hx)]
      exact ih (by
        have : containsSub pat (a :: (A' ++ pat.dropLast)) = false := by
          rw [show a :: (A' ++ pat.dropLast) = (a :: A') ++ pat.dropLast from rfl]
          exact h
        simp only [containsSub, Bool.or_eq_false_iff] at this
        exact this.2)

/-- C10: for every prompt p free of double asterisks and non-empty after
stripping, applied to a channel name whose confirmation head does not
itself contain the new-prompt marker, the realtime settings parser's
extractor recovers exactly the stripped prompt from the confirmation
message that prompt_cmd sends; and because the extractor deletes every
double asterisk from the extracted text, a prompt containing them is not
recovered verbatim, as the concrete second conjunct shows (a-star-star-b
comes back as ab). -/
theorem prompt_confirmation_roundtrip (ch p : Str)
    (hbold : containsSub (str "**") p = false)
    (hne : (pyStrip p).isEmpty = false)
    (hch : containsSub (str "New prompt:")
        ((str "System prompt updated for #" ++ ch ++ str ".\n")
          ++ (str "New prompt:").dropLast) = false) :
    extract_prompt_from_update_message (promptUpdateConfirmation ch p) = some (pyStrip p) ∧
    extract_prompt_from_update_message
        (promptUpdateConfirmation (str "general") (str "a**b")) = some (str "ab") := by
  constructor
  · have hlit : str ".\nNew prompt: **" = str ".\n" ++ (str "New prompt:" ++ str " **") := by
      decide
    have hsplit : promptUpdateConfirmation ch p
        = (str "System prompt updated for #" ++ ch ++ str ".\n")
            ++ (str "New prompt:" ++ (str " **" ++ p ++ str "**")) := by
      unfold promptUpdateConfirmation
      rw [hlit]
      simp [List.append_assoc]
    rw [hsplit]
    unfold extract_prompt_from_update_message
    rw [show (str "System prompt updated for #" ++ ch ++ str ".\n")
          ++ (str "New prompt:" ++ (str " **" ++ p ++ str "**"))
        = ((str "System prompt updated for #" ++ ch ++ str ".\n")
            ++ str "New prompt:" ++ (str " **" ++ p ++ str "**")) from by
          simp [List.append_assoc]]
    rw [afterFirst_split _ _ _ hch]
    rw [show str " **" ++ p ++ str "**" = ' ' :: '*' :: '*' :: (p ++ ['*', '*']) from rfl]
    dsimp only
    rw [pyStrip_bold_block]
    rw [show removeBold ('*' :: '*' :: (p ++ ['*', '*'])) = removeBold (p ++ ['*', '*'])
        from rfl]
    rw [removeBold_append_stars p hbold]
    rw [hne]
    rfl
  · decide

/-- Witness for C10 at channel general and a plain prompt. -/
theorem prompt_confirmation_roundtrip_witness :
    containsSub (str "**") (str "You are helpful") = false ∧
    (pyStrip (str "You are helpful")).isEmpty = false ∧
    containsSub (str "New prompt:")
        ((str "System prompt updated for #" ++ str "general" ++ str ".\n")
          ++ (str "New prompt:").dropLast) = false ∧
    extract_prompt_from_update_message
        (promptUpdateConfirmation (str "general") (str "You are helpful"))
      = some (pyStrip (str "You are helpful")) :=
  ⟨by decide, by decide, by decide,
   (prompt_confirmation_roundtrip (str "general") (str "You are helpful")
      (by decide) (by decide) (by decide)).1⟩
